import Mathlib

/-!
Shallow embedding of `src/book_frontend/src/plugins/rag-chatbot/api/chatClient.ts`,
the API client for the RAG chatbot backend of the
Physical-AI-Humanoid-Robotics-Book repository.

The client performs `fetch` calls and inspects the `Response` object
(`status`, `statusText`, `ok`, `json()`), so the embedding models:
  * JavaScript/JSON values (`Js`), with `undefined` distinct from `null`;
  * JS truthiness, `String(v)` conversion, property access, and
    `JSON.stringify` (the pieces of the JS runtime the client relies on);
  * HTTP requests and responses as the client sees them, with the body of a
    response represented by the outcome of `response.json()` (a parsed value
    or the parse error the promise rejects with);
  * a `World` carrying the queued transport results and a log of every
    outbound request, so that the number of requests issued is observable;
  * the four operations `createSession`, `sendQuery`, `submitFeedback`
    and `healthCheck`, each split into the request it issues and the pure
    handler applied to the single fetch result, exactly as the source code
    performs one `fetch` and then processes the awaited response.
-/

set_option autoImplicit false

/-- JavaScript values, as far as the client observes them.  `undef` models
`undefined` (possible as an omitted argument or an absent property; never
produced by `JSON.parse`), `null` models JSON `null`.  Numbers are modelled
as rationals: the client never computes with numbers, it only passes them
through.  An `obj` field list models a parsed object, its keys unique. -/
inductive Js where
  | undef : Js
  | null : Js
  | bool : Bool → Js
  | num : Rat → Js
  | str : String → Js
  | arr : List Js → Js
  | obj : List (String × Js) → Js

/-- Look a key up in the field list of an object (keys are unique). -/
def lookupField : List (String × Js) → String → Option Js
  | [], _ => none
  | (k, v) :: fs, key => if k = key then some v else lookupField fs key

/-- JavaScript truthiness: `undefined`, `null`, `false`, `0` and `""` are
falsy, every other value (including any array or object) is truthy. -/
def jsTruthy : Js → Bool
  | .undef => false
  | .null => false
  | .bool b => b
  | .num q => decide (q ≠ 0)
  | .str s => !s.isEmpty
  | .arr _ => true
  | .obj _ => true

mutual

/-- JavaScript `String(v)` conversion, used by `new Error(v)` when `v` is
not already a string.  Number formatting is abstracted by `toString`. -/
def jsToString : Js → String
  | .undef => "undefined"
  | .null => "null"
  | .bool b => if b then "true" else "false"
  | .num q => toString q
  | .str s => s
  | .arr xs => String.intercalate "," (jsToStringItems xs)
  | .obj _ => "[object Object]"

/-- Elementwise `String` conversion inside an array: `null` and `undefined`
elements print as the empty string. -/
def jsToStringItems : List Js → List String
  | [] => []
  | .null :: xs => "" :: jsToStringItems xs
  | .undef :: xs => "" :: jsToStringItems xs
  | x :: xs => jsToString x :: jsToStringItems xs

end

/-- Escape one character as inside a JSON string literal (the cases of
`JSON.stringify` escaping that the client can encounter). -/
def escChar (c : Char) : String :=
  if c = '"' then "\\\""
  else if c = '\\' then "\\\\"
  else if c = '\n' then "\\n"
  else if c = '\r' then "\\r"
  else if c = '\t' then "\\t"
  else String.singleton c

/-- Quote a string as a JSON string literal. -/
def jsonQuote (s : String) : String :=
  "\"" ++ String.join (s.data.map escChar) ++ "\""

mutual

/-- Model of `JSON.stringify`.  `undefined` has no JSON representation
(`none`); object properties whose value is `undefined` are dropped, while
`undefined` array elements serialize as `null`. -/
def jsStringify : Js → Option String
  | .undef => none
  | .null => some "null"
  | .bool b => some (if b then "true" else "false")
  | .num q => some (toString q)
  | .str s => some (jsonQuote s)
  | .arr xs => some ("[" ++ String.intercalate "," (jsStringifyItems xs) ++ "]")
  | .obj fs => some ("\x7b" ++ String.intercalate "," (jsStringifyFields fs) ++ "\x7d")

/-- Serialize array elements; an element with no representation becomes
`null`. -/
def jsStringifyItems : List Js → List String
  | [] => []
  | x :: xs =>
    (match jsStringify x with
      | some s => s
      | none => "null") :: jsStringifyItems xs

/-- Serialize object fields; a field whose value has no representation
(`undefined`) is dropped entirely. -/
def jsStringifyFields : List (String × Js) → List String
  | [] => []
  | (k, v) :: fs =>
    match jsStringify v with
    | some s => (jsonQuote k ++ ":" ++ s) :: jsStringifyFields fs
    | none => jsStringifyFields fs

end

/-- JavaScript property access `v[key]`: throws a `TypeError` on `null` or
`undefined`, looks the key up on an object, and yields `undefined` (`none`)
on every other primitive or on an array without that property. -/
def Js.propAccess : Js → String → Except String (Option Js)
  | .null, key => .error ("TypeError: cannot read properties of null (reading " ++ key ++ ")")
  | .undef, key => .error ("TypeError: cannot read properties of undefined (reading " ++ key ++ ")")
  | .obj fs, key => .ok (lookupField fs key)
  | _, _ => .ok none

/-- An outbound HTTP request as the client builds it for `fetch`:
url, method, the `Content-Type` header when set, and the serialized body
when present (`healthCheck` sends a plain GET with no body). -/
structure HttpRequest where
  url : String
  method : String
  contentType : Option String
  body : Option String

/-- An HTTP response as the client observes it: `status`, `statusText`, and
the outcome of `response.json()` — either the parsed value or the message
of the `SyntaxError` the json promise rejects with. -/
structure HttpResponse where
  status : Nat
  statusText : String
  jsonBody : Except String Js

/-- The `Response.ok` getter of the Fetch API: status in the range 200-299. -/
def HttpResponse.ok (r : HttpResponse) : Bool :=
  decide (200 ≤ r.status ∧ r.status ≤ 299)

/-- The environment of one client run: the queued transport results (each
`fetch` consumes the next one; an exhausted queue models a network that
rejects every call) and the log of requests issued so far. -/
structure World where
  transport : List (Except String HttpResponse)
  log : List HttpRequest

/-- One `fetch` call: logs the request and yields the next transport
result — a response, or the error the fetch promise rejects with. -/
def doFetch (req : HttpRequest) (w : World) : Except String HttpResponse × World :=
  match w.transport with
  | [] => (.error "TypeError: fetch failed", ⟨[], w.log ++ [req]⟩)
  | r :: rest => (r, ⟨rest, w.log ++ [req]⟩)

/-- How an operation of the client can fail: `thrown msg` is
`throw new Error(msg)`; `jsonError` is the rejection of `response.json()`
propagated by `await`; `networkError` is the rejection of `fetch` itself;
`runtime` is a JS runtime error (a `TypeError`) raised while handling the
response. -/
inductive ClientError where
  | thrown : String → ClientError
  | jsonError : String → ClientError
  | networkError : String → ClientError
  | runtime : String → ClientError

/-- The `mode` field of `ChatQueryRequest`: `full_book` or `selection`. -/
inductive Mode where
  | full_book : Mode
  | selection : Mode

/-- Wire form of `mode`. -/
def Mode.toStr : Mode → String
  | .full_book => "full_book"
  | .selection => "selection"

/-- The `ChatQueryRequest` interface.  An optional field that may also be
null is `Option (Option String)`: `none` is an absent property
(`undefined`), `some none` is `null`, `some (some s)` is a string. -/
structure ChatQueryRequest where
  query_text : String
  mode : Mode
  selected_text : Option (Option String)
  session_id : Option (Option String)

/-- An absent-or-null-or-string field as a JS value. -/
def optNullable : Option (Option String) → Js
  | none => .undef
  | some none => .null
  | some (some s) => .str s

/-- The object literal `request` that `sendQuery` serializes. -/
def ChatQueryRequest.toJs (r : ChatQueryRequest) : Js :=
  .obj [("query_text", .str r.query_text),
        ("mode", .str r.mode.toStr),
        ("selected_text", optNullable r.selected_text),
        ("session_id", optNullable r.session_id)]

/-- The `rating` field of `FeedbackRequest`. -/
inductive Rating where
  | positive : Rating
  | negative : Rating

/-- Wire form of `rating`. -/
def Rating.toStr : Rating → String
  | .positive => "positive"
  | .negative => "negative"

/-- The `FeedbackRequest` interface. -/
structure FeedbackRequest where
  response_id : String
  rating : Rating
  feedback_text : Option (Option String)

/-- The object literal `request` that `submitFeedback` serializes. -/
def FeedbackRequest.toJs (r : FeedbackRequest) : Js :=
  .obj [("response_id", .str r.response_id),
        ("rating", .str r.rating.toStr),
        ("feedback_text", optNullable r.feedback_text)]

/-- The client: holds the base URL fixed at construction. -/
structure ChatClient where
  baseUrl : String

/-- The request issued by `createSession`: POST to `/api/session` with the
JSON body `JSON.stringify ({ user_identifier: userIdentifier })`; an omitted
argument is `undefined`. -/
def ChatClient.createSessionRequest (c : ChatClient) (userIdentifier : Option String) :
    HttpRequest :=
  ⟨c.baseUrl ++ "/api/session", "POST", some "application/json",
    jsStringify (.obj [("user_identifier", optNullable (userIdentifier.map some))])⟩

/-- Processing of the single response of `createSession`: non-ok status
throws `Failed to create session: <statusText>`, otherwise the parsed JSON
body is returned as is. -/
def ChatClient.createSessionHandle (fr : Except String HttpResponse) :
    Except ClientError Js :=
  match fr with
  | .error e => .error (.networkError e)
  | .ok response =>
    if !response.ok then
      .error (.thrown ("Failed to create session: " ++ response.statusText))
    else
      match response.jsonBody with
      | .error e => .error (.jsonError e)
      | .ok j => .ok j

/-- `createSession`: one fetch, then the handler on its result. -/
def ChatClient.createSession (c : ChatClient) (userIdentifier : Option String)
    (w : World) : Except ClientError Js × World :=
  let p := doFetch (c.createSessionRequest userIdentifier) w
  (ChatClient.createSessionHandle p.1, p.2)

/-- The request issued by `sendQuery`: POST to `/api/chat` with the JSON
serialization of the `ChatQueryRequest`. -/
def ChatClient.sendQueryRequest (c : ChatClient) (request : ChatQueryRequest) :
    HttpRequest :=
  ⟨c.baseUrl ++ "/api/chat", "POST", some "application/json",
    jsStringify request.toJs⟩

/-- Processing of the single response of `sendQuery`, in source order:
status 429 throws the fixed rate-limit message before anything else; then
status 400 reads the JSON body and throws `error.detail || "Invalid
request"`; any other non-ok status throws `Failed to send query:
<statusText>`; an ok response returns the parsed JSON body as is. -/
def ChatClient.sendQueryHandle (fr : Except String HttpResponse) :
    Except ClientError Js :=
  match fr with
  | .error e => .error (.networkError e)
  | .ok response =>
    if !response.ok then
      if response.status = 429 then
        .error (.thrown "Rate limit exceeded. Please wait a moment and try again.")
      else if response.status = 400 then
        match response.jsonBody with
        | .error e => .error (.jsonError e)
        | .ok errorJs =>
          match errorJs.propAccess "detail" with
          | .error e => .error (.runtime e)
          | .ok none => .error (.thrown "Invalid request")
          | .ok (some v) =>
            .error (.thrown (if jsTruthy v then jsToString v else "Invalid request"))
      else
        .error (.thrown ("Failed to send query: " ++ response.statusText))
    else
      match response.jsonBody with
      | .error e => .error (.jsonError e)
      | .ok j => .ok j

/-- `sendQuery`: one fetch, then the handler on its result. -/
def ChatClient.sendQuery (c : ChatClient) (request : ChatQueryRequest)
    (w : World) : Except ClientError Js × World :=
  let p := doFetch (c.sendQueryRequest request) w
  (ChatClient.sendQueryHandle p.1, p.2)

/-- The request issued by `submitFeedback`: POST to `/api/feedback` with
the JSON serialization of the `FeedbackRequest`. -/
def ChatClient.submitFeedbackRequest (c : ChatClient) (request : FeedbackRequest) :
    HttpRequest :=
  ⟨c.baseUrl ++ "/api/feedback", "POST", some "application/json",
    jsStringify request.toJs⟩

/-- Processing of the single response of `submitFeedback`: status 409
throws the fixed duplicate-feedback message, any other non-ok status
throws `Failed to submit feedback: <statusText>`, and an ok response
returns nothing (the body is never read). -/
def ChatClient.submitFeedbackHandle (fr : Except String HttpResponse) :
    Except ClientError Unit :=
  match fr with
  | .error e => .error (.networkError e)
  | .ok response =>
    if !response.ok then
      if response.status = 409 then
        .error (.thrown "Feedback already submitted for this response")
      else
        .error (.thrown ("Failed to submit feedback: " ++ response.statusText))
    else
      .ok ()

/-- `submitFeedback`: one fetch, then the handler on its result. -/
def ChatClient.submitFeedback (c : ChatClient) (request : FeedbackRequest)
    (w : World) : Except ClientError Unit × World :=
  let p := doFetch (c.submitFeedbackRequest request) w
  (ChatClient.submitFeedbackHandle p.1, p.2)

/-- The request issued by `healthCheck`: a plain GET of `/api/health`. -/
def ChatClient.healthCheckRequest (c : ChatClient) : HttpRequest :=
  ⟨c.baseUrl ++ "/api/health", "GET", none, none⟩

/-- Processing of the single response of `healthCheck`: any non-ok status
throws the fixed message `API health check failed` (the status text is not
used), an ok response returns the parsed JSON body as is. -/
def ChatClient.healthCheckHandle (fr : Except String HttpResponse) :
    Except ClientError Js :=
  match fr with
  | .error e => .error (.networkError e)
  | .ok response =>
    if !response.ok then
      .error (.thrown "API health check failed")
    else
      match response.jsonBody with
      | .error e => .error (.jsonError e)
      | .ok j => .ok j

/-- `healthCheck`: one fetch, then the handler on its result. -/
def ChatClient.healthCheck (c : ChatClient) (w : World) :
    Except ClientError Js × World :=
  let p := doFetch c.healthCheckRequest w
  (ChatClient.healthCheckHandle p.1, p.2)

/-- The `SourceChunk` interface (numbers modelled as rationals). -/
structure SourceChunk where
  chunk_id : String
  module_number : Rat
  chapter_number : Rat
  section_title : String
  url : String
  score : Rat

/-- The `ChatResponse` interface. -/
structure ChatResponse where
  response_id : String
  response_text : String
  source_chunks : List SourceChunk
  response_time_ms : Rat
  session_id : String

/-- Read one element of `source_chunks` as a `SourceChunk`, the way a
consumer of the typed interface accesses its fields. -/
def decodeSourceChunk : Js → Option SourceChunk
  | .obj fs =>
    match lookupField fs "chunk_id", lookupField fs "module_number",
        lookupField fs "chapter_number", lookupField fs "section_title",
        lookupField fs "url", lookupField fs "score" with
    | some (.str cid), some (.num m), some (.num ch),
        some (.str title), some (.str u), some (.num sc) =>
      some ⟨cid, m, ch, title, u, sc⟩
    | _, _, _, _, _, _ => none
  | _ => none

/-- Read a `source_chunks` array elementwise, in order; fails if any
element fails. -/
def decodeChunks : List Js → Option (List SourceChunk)
  | [] => some []
  | v :: vs =>
    match decodeSourceChunk v, decodeChunks vs with
    | some chunk, some chunks => some (chunk :: chunks)
    | _, _ => none

/-- Read a parsed JSON value as a `ChatResponse`, the way a consumer of the
typed interface accesses its fields; `source_chunks` is read elementwise in
the order of the array. -/
def decodeChatResponse (j : Js) : Option ChatResponse :=
  match j with
  | .obj fs =>
    match lookupField fs "response_id" with
    | some (.str rid) =>
      match lookupField fs "response_text" with
      | some (.str rtext) =>
        match lookupField fs "source_chunks" with
        | some (.arr chunkVals) =>
          match decodeChunks chunkVals with
          | some chunks =>
            match lookupField fs "response_time_ms" with
            | some (.num t) =>
              match lookupField fs "session_id" with
              | some (.str sid) => some ⟨rid, rtext, chunks, t, sid⟩
              | _ => none
            | _ => none
          | none => none
        | _ => none
      | _ => none
    | _ => none
  | _ => none

/-- A well-formed `ChatResponse` body with the given field values, as
`/api/chat` sends it. -/
def mkChatBody (rid rtext : String) (chunkVals : List Js) (t : Rat)
    (sid : String) : Js :=
  .obj [("response_id", .str rid), ("response_text", .str rtext),
        ("source_chunks", .arr chunkVals), ("response_time_ms", .num t),
        ("session_id", .str sid)]

/-- Does the second character list begin the first? -/
def beginsWith : List Char → List Char → Bool
  | [], _ => true
  | _ :: _, [] => false
  | a :: as, b :: bs => a == b && beginsWith as bs

/-- Does the first character list occur contiguously inside the second? -/
def occursIn (sub : List Char) : List Char → Bool
  | [] => beginsWith sub []
  | c :: t => beginsWith sub (c :: t) || occursIn sub t

/-- Substring test on strings: `strContains s sub` holds when `sub` occurs
contiguously in `s`. -/
def strContains (s sub : String) : Bool :=
  occursIn sub.data s.data

theorem beginsWith_append (s t : List Char) : beginsWith s (s ++ t) = true := by
  induction s with
  | nil => rfl
  | cons c cs ih => simp [beginsWith, ih]

theorem occursIn_append (pre sub : List Char) : occursIn sub (pre ++ sub) = true := by
  induction pre with
  | nil =>
    cases sub with
    | nil => rfl
    | cons c t =>
      have h := beginsWith_append (c :: t) []
      simp only [List.append_nil] at h
      simp [occursIn, h]
  | cons c pre ih => simp [occursIn, ih]

theorem strContains_append (pre sub : String) :
    strContains (pre ++ sub) sub = true := by
  have h : (pre ++ sub).data = pre.data ++ sub.data := String.data_append pre sub
  simp only [strContains, h]
  exact occursIn_append pre.data sub.data

theorem doFetch_log (req : HttpRequest) (w : World) :
    (doFetch req w).2.log = w.log ++ [req] := by
  unfold doFetch
  cases w.transport <;> rfl

theorem decodeChunks_length (xs : List Js) (ys : List SourceChunk)
    (h : decodeChunks xs = some ys) : ys.length = xs.length := by
  induction xs generalizing ys with
  | nil =>
    simp only [decodeChunks, Option.some.injEq] at h
    subst h
    rfl
  | cons v vs ih =>
    simp only [decodeChunks] at h
    cases hv : decodeSourceChunk v with
    | none => rw [hv] at h; simp at h
    | some chunk =>
      cases hvs : decodeChunks vs with
      | none => rw [hv, hvs] at h; simp at h
      | some chunks =>
        rw [hv, hvs] at h
        simp only [Option.some.injEq] at h
        subst h
        simp [ih chunks hvs]

theorem decodeChunks_get (xs : List Js) (ys : List SourceChunk)
    (h : decodeChunks xs = some ys) :
    ∀ i (hi : i < xs.length) (hj : i < ys.length),
      decodeSourceChunk (xs.get ⟨i, hi⟩) = some (ys.get ⟨i, hj⟩) := by
  induction xs generalizing ys with
  | nil => intro i hi; exact absurd hi (by simp)
  | cons v vs ih =>
    simp only [decodeChunks] at h
    cases hv : decodeSourceChunk v with
    | none => rw [hv] at h; simp at h
    | some chunk =>
      cases hvs : decodeChunks vs with
      | none => rw [hv, hvs] at h; simp at h
      | some chunks =>
        rw [hv, hvs] at h
        simp only [Option.some.injEq] at h
        subst h
        intro i hi hj
        cases i with
        | zero => simpa using hv
        | succ n =>
          exact ih chunks hvs n (Nat.lt_of_succ_lt_succ hi) (Nat.lt_of_succ_lt_succ hj)

/-- A concrete client, query and feedback request used to exercise the
theorems below on closed inputs. -/
def c0 : ChatClient := ⟨"http://localhost:8000"⟩

def q0 : ChatQueryRequest := ⟨"What is ROS 2?", .full_book, none, none⟩

def f0 : FeedbackRequest := ⟨"resp-1", .positive, none⟩

/-- Claim C1 (counterexample): the claim as stated fails for `healthCheck`.
On a 500 response with status text `Internal Server Error`, `healthCheck`
fails with the fixed message `API health check failed`, which does not
contain the status text. -/
theorem healthCheck_fixed_message_counterexample :
    (ChatClient.healthCheck c0
        ⟨[.ok ⟨500, "Internal Server Error", .ok .null⟩], []⟩).1
      = .error (.thrown "API health check failed")
    ∧ strContains "API health check failed" "Internal Server Error" = false :=
  ⟨rfl, rfl⟩

/-- Claim C1 (amended): on a non-success status that is not special-cased,
`createSession`, `sendQuery` (status neither 429 nor 400) and
`submitFeedback` (status not 409) fail with an error whose message contains
the HTTP status text of the response, while `healthCheck` fails with the
fixed message `API health check failed` that does not use the status
text. -/
theorem generic_error_contains_statusText (c : ChatClient)
    (uid : Option String) (q : ChatQueryRequest) (f : FeedbackRequest)
    (r : HttpResponse) (rest : List (Except String HttpResponse))
    (log : List HttpRequest) (hok : r.ok = false) :
    ((ChatClient.createSession c uid ⟨.ok r :: rest, log⟩).1
        = .error (.thrown ("Failed to create session: " ++ r.statusText))
      ∧ strContains ("Failed to create session: " ++ r.statusText) r.statusText = true)
    ∧ (r.status ≠ 429 → r.status ≠ 400 →
        (ChatClient.sendQuery c q ⟨.ok r :: rest, log⟩).1
            = .error (.thrown ("Failed to send query: " ++ r.statusText))
          ∧ strContains ("Failed to send query: " ++ r.statusText) r.statusText = true)
    ∧ (r.status ≠ 409 →
        (ChatClient.submitFeedback c f ⟨.ok r :: rest, log⟩).1
            = .error (.thrown ("Failed to submit feedback: " ++ r.statusText))
          ∧ strContains ("Failed to submit feedback: " ++ r.statusText) r.statusText = true)
    ∧ (ChatClient.healthCheck c ⟨.ok r :: rest, log⟩).1
        = .error (.thrown "API health check failed") := by
  refine ⟨⟨?_, strContains_append _ _⟩, ?_, ?_, ?_⟩
  · simp [ChatClient.createSession, ChatClient.createSessionHandle, doFetch, hok]
  · intro h429 h400
    refine ⟨?_, strContains_append _ _⟩
    simp [ChatClient.sendQuery, ChatClient.sendQueryHandle, doFetch, hok, h429, h400]
  · intro h409
    refine ⟨?_, strContains_append _ _⟩
    simp [ChatClient.submitFeedback, ChatClient.submitFeedbackHandle, doFetch, hok, h409]
  · simp [ChatClient.healthCheck, ChatClient.healthCheckHandle, doFetch, hok]

/-- Witness for claim C1: a 500 response with status text
`Internal Server Error` produces the three status-text-carrying messages
and the fixed health-check message. -/
theorem generic_error_contains_statusText_witness :
    (ChatClient.createSession c0 none
        ⟨[.ok ⟨500, "Internal Server Error", .ok .null⟩], []⟩).1
      = .error (.thrown "Failed to create session: Internal Server Error")
    ∧ (ChatClient.sendQuery c0 q0
        ⟨[.ok ⟨500, "Internal Server Error", .ok .null⟩], []⟩).1
      = .error (.thrown "Failed to send query: Internal Server Error")
    ∧ (ChatClient.submitFeedback c0 f0
        ⟨[.ok ⟨500, "Internal Server Error", .ok .null⟩], []⟩).1
      = .error (.thrown "Failed to submit feedback: Internal Server Error")
    ∧ (ChatClient.healthCheck c0
        ⟨[.ok ⟨500, "Internal Server Error", .ok .null⟩], []⟩).1
      = .error (.thrown "API health check failed")
    ∧ strContains "Failed to create session: Internal Server Error"
        "Internal Server Error" = true := by
  have h := generic_error_contains_statusText c0 none q0 f0
    ⟨500, "Internal Server Error", .ok .null⟩ [] [] rfl
  exact ⟨h.1.1, (h.2.1 (by decide) (by decide)).1, (h.2.2.1 (by decide)).1,
    h.2.2.2, h.1.2⟩

/-- Claim C2 (counterexample): the claim as stated fails when the 400 body
carries a `detail` field holding the empty string: the thrown message is
`Invalid request`, not the empty detail value. -/
theorem sendQuery_empty_detail_counterexample :
    (ChatClient.sendQuery c0 q0
        ⟨[.ok ⟨400, "Bad Request", .ok (.obj [("detail", .str "")])⟩], []⟩).1
      = .error (.thrown "Invalid request")
    ∧ "Invalid request" ≠ "" :=
  ⟨rfl, by decide⟩

/-- Claim C2 (amended): on a 400 response whose JSON body is an object, a
truthy `detail` field makes `sendQuery` fail with `String(detail)` as the
message; an absent `detail` field, and equally a present but falsy one,
make it fail with `Invalid request`. -/
theorem sendQuery_400_detail_mapping (c : ChatClient) (q : ChatQueryRequest)
    (stxt : String) (fs : List (String × Js))
    (rest : List (Except String HttpResponse)) (log : List HttpRequest) :
    (∀ v, lookupField fs "detail" = some v → jsTruthy v = true →
      (ChatClient.sendQuery c q ⟨.ok ⟨400, stxt, .ok (.obj fs)⟩ :: rest, log⟩).1
        = .error (.thrown (jsToString v)))
    ∧ (lookupField fs "detail" = none →
      (ChatClient.sendQuery c q ⟨.ok ⟨400, stxt, .ok (.obj fs)⟩ :: rest, log⟩).1
        = .error (.thrown "Invalid request"))
    ∧ (∀ v, lookupField fs "detail" = some v → jsTruthy v = false →
      (ChatClient.sendQuery c q ⟨.ok ⟨400, stxt, .ok (.obj fs)⟩ :: rest, log⟩).1
        = .error (.thrown "Invalid request")) := by
  refine ⟨?_, ?_, ?_⟩
  · intro v hv htruthy
    simp [ChatClient.sendQuery, ChatClient.sendQueryHandle, doFetch,
      HttpResponse.ok, Js.propAccess, hv, htruthy]
  · intro hv
    simp [ChatClient.sendQuery, ChatClient.sendQueryHandle, doFetch,
      HttpResponse.ok, Js.propAccess, hv]
  · intro v hv hfalsy
    simp [ChatClient.sendQuery, ChatClient.sendQueryHandle, doFetch,
      HttpResponse.ok, Js.propAccess, hv, hfalsy]

/-- Witness for claim C2: a 400 body with `detail` equal to `bad mode`
yields exactly that message, and a body without `detail` yields
`Invalid request`. -/
theorem sendQuery_400_detail_mapping_witness :
    (ChatClient.sendQuery c0 q0
        ⟨[.ok ⟨400, "Bad Request", .ok (.obj [("detail", .str "bad mode")])⟩], []⟩).1
      = .error (.thrown "bad mode")
    ∧ (ChatClient.sendQuery c0 q0
        ⟨[.ok ⟨400, "Bad Request", .ok (.obj [("error", .str "oops")])⟩], []⟩).1
      = .error (.thrown "Invalid request") := by
  have h1 := (sendQuery_400_detail_mapping c0 q0 "Bad Request"
    [("detail", Js.str "bad mode")] [] []).1 (Js.str "bad mode") rfl rfl
  have h2 := (sendQuery_400_detail_mapping c0 q0 "Bad Request"
    [("error", Js.str "oops")] [] []).2.1 rfl
  refine ⟨?_, h2⟩
  simpa [jsToString] using h1

/-- Claim C3: a 429 response makes `sendQuery` fail with the fixed
rate-limit message, whatever the body holds — even a body that is invalid
JSON or that carries a `detail` field — since the 429 check comes before
the 400 handling and the generic handling. -/
theorem sendQuery_429_rate_limited (c : ChatClient) (q : ChatQueryRequest)
    (stxt : String) (b : Except String Js)
    (rest : List (Except String HttpResponse)) (log : List HttpRequest) :
    (ChatClient.sendQuery c q ⟨.ok ⟨429, stxt, b⟩ :: rest, log⟩).1
      = .error (.thrown "Rate limit exceeded. Please wait a moment and try again.") :=
  rfl

/-- Claim C4: on a 200 response carrying a well-formed `ChatResponse`
body, `sendQuery` returns the parsed body unchanged, so the decoded
`source_chunks` list has the length of the received array and its `i`-th
element is the decoding of the `i`-th received element: the order received
in the raw JSON array is preserved. -/
theorem sendQuery_preserves_chunk_order (c : ChatClient)
    (q : ChatQueryRequest) (stxt rid rtext : String) (t : Rat) (sid : String)
    (chunkVals : List Js) (chunks : List SourceChunk)
    (rest : List (Except String HttpResponse)) (log : List HttpRequest)
    (hchunks : decodeChunks chunkVals = some chunks) :
    (ChatClient.sendQuery c q
        ⟨.ok ⟨200, stxt, .ok (mkChatBody rid rtext chunkVals t sid)⟩ :: rest, log⟩).1
      = .ok (mkChatBody rid rtext chunkVals t sid)
    ∧ decodeChatResponse (mkChatBody rid rtext chunkVals t sid)
      = some ⟨rid, rtext, chunks, t, sid⟩
    ∧ chunks.length = chunkVals.length
    ∧ ∀ i (hi : i < chunkVals.length) (hj : i < chunks.length),
        decodeSourceChunk (chunkVals.get ⟨i, hi⟩) = some (chunks.get ⟨i, hj⟩) := by
  refine ⟨rfl, ?_, decodeChunks_length _ _ hchunks, decodeChunks_get _ _ hchunks⟩
  have hstep : decodeChatResponse (mkChatBody rid rtext chunkVals t sid)
      = match decodeChunks chunkVals with
        | some cs => some ⟨rid, rtext, cs, t, sid⟩
        | none => none := rfl
  rw [hstep, hchunks]

/-- Witness for claim C4: a body with two chunks comes back unchanged and
decodes to the two chunks in the received order. -/
theorem sendQuery_preserves_chunk_order_witness :
    (ChatClient.sendQuery c0 q0
        ⟨[.ok ⟨200, "OK", .ok (mkChatBody "r1" "Answer"
          [Js.obj [("chunk_id", .str "a"), ("module_number", .num 1),
                   ("chapter_number", .num 2), ("section_title", .str "Intro"),
                   ("url", .str "u1"), ("score", .num 9)],
           Js.obj [("chunk_id", .str "b"), ("module_number", .num 3),
                   ("chapter_number", .num 4), ("section_title", .str "Gazebo"),
                   ("url", .str "u2"), ("score", .num 5)]] 12 "s1")⟩], []⟩).1
      = .ok (mkChatBody "r1" "Answer"
          [Js.obj [("chunk_id", .str "a"), ("module_number", .num 1),
                   ("chapter_number", .num 2), ("section_title", .str "Intro"),
                   ("url", .str "u1"), ("score", .num 9)],
           Js.obj [("chunk_id", .str "b"), ("module_number", .num 3),
                   ("chapter_number", .num 4), ("section_title", .str "Gazebo"),
                   ("url", .str "u2"), ("score", .num 5)]] 12 "s1")
    ∧ decodeChatResponse (mkChatBody "r1" "Answer"
          [Js.obj [("chunk_id", .str "a"), ("module_number", .num 1),
                   ("chapter_number", .num 2), ("section_title", .str "Intro"),
                   ("url", .str "u1"), ("score", .num 9)],
           Js.obj [("chunk_id", .str "b"), ("module_number", .num 3),
                   ("chapter_number", .num 4), ("section_title", .str "Gazebo"),
                   ("url", .str "u2"), ("score", .num 5)]] 12 "s1")
      = some ⟨"r1", "Answer",
          [⟨"a", 1, 2, "Intro", "u1", 9⟩, ⟨"b", 3, 4, "Gazebo", "u2", 5⟩],
          12, "s1"⟩ := by
  have h := sendQuery_preserves_chunk_order c0 q0 "OK" "r1" "Answer" 12 "s1"
    [Js.obj [("chunk_id", .str "a"), ("module_number", .num 1),
             ("chapter_number", .num 2), ("section_title", .str "Intro"),
             ("url", .str "u1"), ("score", .num 9)],
     Js.obj [("chunk_id", .str "b"), ("module_number", .num 3),
             ("chapter_number", .num 4), ("section_title", .str "Gazebo"),
             ("url", .str "u2"), ("score", .num 5)]]
    [⟨"a", 1, 2, "Intro", "u1", 9⟩, ⟨"b", 3, 4, "Gazebo", "u2", 5⟩]
    [] [] rfl
  exact ⟨h.1, h.2.1⟩

/-- Claim C5: a 409 response makes `submitFeedback` fail with the fixed
duplicate-feedback message whatever the body holds, and a success-status
response makes it return the unit value (no result). -/
theorem submitFeedback_409_and_success (c : ChatClient) (f : FeedbackRequest)
    (stxt : String) (b : Except String Js) (r : HttpResponse)
    (rest : List (Except String HttpResponse)) (log : List HttpRequest)
    (hok : r.ok = true) :
    (ChatClient.submitFeedback c f ⟨.ok ⟨409, stxt, b⟩ :: rest, log⟩).1
      = .error (.thrown "Feedback already submitted for this response")
    ∧ (ChatClient.submitFeedback c f ⟨.ok r :: rest, log⟩).1 = .ok () := by
  refine ⟨rfl, ?_⟩
  simp [ChatClient.submitFeedback, ChatClient.submitFeedbackHandle, doFetch, hok]

/-- Witness for claim C5: a 409 with an invalid-JSON body still yields the
fixed message, and a 201 response yields the unit value. -/
theorem submitFeedback_409_and_success_witness :
    (ChatClient.submitFeedback c0 f0
        ⟨[.ok ⟨409, "Conflict", .error "SyntaxError: Unexpected token"⟩], []⟩).1
      = .error (.thrown "Feedback already submitted for this response")
    ∧ (ChatClient.submitFeedback c0 f0 ⟨[.ok ⟨201, "Created", .ok .null⟩], []⟩).1
      = .ok () := by
  have h := submitFeedback_409_and_success c0 f0 "Conflict"
    (.error "SyntaxError: Unexpected token") ⟨201, "Created", .ok .null⟩ [] [] rfl
  exact ⟨h.1, h.2⟩

/-- Claim C6: `healthCheck` against a 200 response whose body is the object
with `status` equal to `ok` and `version` equal to `1.2.3` returns exactly
that parsed object, unchanged. -/
theorem healthCheck_returns_parsed_body :
    (ChatClient.healthCheck c0
        ⟨[.ok ⟨200, "OK",
          .ok (.obj [("status", .str "ok"), ("version", .str "1.2.3")])⟩], []⟩).1
      = .ok (.obj [("status", .str "ok"), ("version", .str "1.2.3")]) :=
  rfl

/-- Claim C7: every invocation of each of the four operations issues
exactly one outbound request, whatever the world holds — a success
response, an error-status response, or a transport failure — so no retry
happens on any failure class. -/
theorem operations_issue_single_request (c : ChatClient)
    (uid : Option String) (q : ChatQueryRequest) (f : FeedbackRequest)
    (w : World) :
    (ChatClient.createSession c uid w).2.log.length = w.log.length + 1
    ∧ (ChatClient.sendQuery c q w).2.log.length = w.log.length + 1
    ∧ (ChatClient.submitFeedback c f w).2.log.length = w.log.length + 1
    ∧ (ChatClient.healthCheck c w).2.log.length = w.log.length + 1 := by
  refine ⟨?_, ?_, ?_, ?_⟩ <;>
    simp [ChatClient.createSession, ChatClient.sendQuery,
      ChatClient.submitFeedback, ChatClient.healthCheck, doFetch_log]

/-- Claim C8: a 400 response whose body has a `detail` field that is
present but falsy makes `sendQuery` fail with `Invalid request`, not with
the falsy detail value: the fallback triggers on any falsy `detail`. -/
theorem sendQuery_falsy_detail_fallback (c : ChatClient)
    (q : ChatQueryRequest) (stxt : String) (fs : List (String × Js)) (v : Js)
    (rest : List (Except String HttpResponse)) (log : List HttpRequest)
    (hv : lookupField fs "detail" = some v) (hfalsy : jsTruthy v = false) :
    (ChatClient.sendQuery c q ⟨.ok ⟨400, stxt, .ok (.obj fs)⟩ :: rest, log⟩).1
      = .error (.thrown "Invalid request") := by
  simp [ChatClient.sendQuery, ChatClient.sendQueryHandle, doFetch,
    HttpResponse.ok, Js.propAccess, hv, hfalsy]

/-- Witness for claim C8: `detail` holding the empty string triggers the
fallback message. -/
theorem sendQuery_falsy_detail_fallback_witness :
    (ChatClient.sendQuery c0 q0
        ⟨[.ok ⟨400, "Bad Request", .ok (.obj [("detail", .str "")])⟩], []⟩).1
      = .error (.thrown "Invalid request") :=
  sendQuery_falsy_detail_fallback c0 q0 "Bad Request"
    [("detail", Js.str "")] (Js.str "") [] [] rfl rfl

/-- Claim C9: a 400 response whose body is not valid JSON makes `sendQuery`
fail with the parse error that `response.json()` rejects with, not with
`Invalid request` nor any mapped message. -/
theorem sendQuery_400_invalid_json (c : ChatClient) (q : ChatQueryRequest)
    (stxt e : String) (rest : List (Except String HttpResponse))
    (log : List HttpRequest) :
    (ChatClient.sendQuery c q ⟨.ok ⟨400, stxt, .error e⟩ :: rest, log⟩).1
      = .error (.jsonError e) :=
  rfl

/-- Claim C10: with the user identifier omitted, the body `createSession`
serializes is exactly the empty JSON object — the `user_identifier` key is
dropped by `JSON.stringify`, not sent as null — and that request is the one
logged by the fetch. -/
theorem createSession_omits_undefined_identifier (c : ChatClient) (w : World) :
    (ChatClient.createSessionRequest c none).body = some "\x7b\x7d"
    ∧ (ChatClient.createSession c none w).2.log
      = w.log ++ [ChatClient.createSessionRequest c none] := by
  constructor
  · simp only [ChatClient.createSessionRequest, jsStringify, jsStringifyFields,
      optNullable, Option.map]
    rfl
  · exact doFetch_log (ChatClient.createSessionRequest c none) w
